import Mathlib

/-!
Verification of the opinion.iq market-scoring server.

The development embeds the metric calculation, scoring, verdict and
identifier-parsing logic of `src/server/server.js` (first variant,
lines 1-308), the envelope-unwrapping logic of the upstream client in
`src/unnamed/part_001` (`openApiGet`, lines 56-96), and the two paginated
market-search routines `findMarketByTopicId` (`src/unnamed/part_001`,
lines 220-241) and `findChildMarket` (`src/unnamed/part_003`, lines 16-37).

Numbers are modelled as exact rationals (`ℚ`).  All constants involved in
the claims (prices with two decimal digits, thresholds, score sums) are
exactly representable in IEEE doubles or compared far from representation
error, so the rational model agrees with the JavaScript float semantics on
every comparison performed below.
-/

/-- JavaScript `Math.round`: rounds half toward +∞, which equals
`⌊x + 1/2⌋` for every finite input.  Stated through `Rat.floor` so that
the definition evaluates inside the kernel; `jsRound_eq_floor` below
identifies it with the mathematical floor. -/
def jsRound (q : ℚ) : ℤ := Rat.floor (q + 1/2)

/-- Decoded JSON values, the input domain of the server's payload handling.
JSON has no `undefined`, `NaN` or `Infinity` literal, so decoded payloads
never contain them. -/
inductive Json where
  | null
  | bool (b : Bool)
  | num (q : ℚ)
  | str (s : String)
  | arr (elems : List Json)
  | obj (fields : List (String × Json))

/-- Property access `payload.k` (and the `"k" in payload` test when the
result is `some`): `none` models JavaScript `undefined`.  Only objects have
fields; `fields` of a decoded JSON object has distinct keys, and lookup
takes the first binding like JavaScript property access. -/
def Json.getField : Json → String → Option Json
  | .obj fs, k => (fs.find? (fun p => p.1 == k)).map (·.2)
  | _, _ => none

/-- JavaScript truthiness of a decoded JSON value (`undefined` never occurs
inside decoded JSON). -/
def Json.truthy : Json → Bool
  | .null => false
  | .bool b => b
  | .num q => q != 0
  | .str s => s != ""
  | .arr _ => true
  | .obj _ => true

/-- JavaScript `Number(x)` on a decoded JSON value, with `none` standing
for `NaN`.  Coercion of non-numeric strings, arrays and objects is not
modelled exactly: a non-empty string, array or object maps to `none`
(the code paths proved about below only ever apply `Number` to numeric
fields, `null`, booleans or the empty string). -/
def Json.toNumber : Json → Option ℚ
  | .null => some 0
  | .bool b => some (if b then 1 else 0)
  | .num q => some q
  | .str s => if s = "" then some 0 else none
  | .arr _ => none
  | .obj _ => none

/-- JavaScript `Number(x)` where a `NaN` result is collapsed to `0`.  Used
where the surrounding code guards the value with a truthiness test, under
which `NaN` and `0` behave identically. -/
def Json.toNumD (j : Json) : ℚ := (j.toNumber).getD 0

/-- Field access under the nullish-coalescing operator: `j?.k ?? _` skips
both a missing field and an explicit `null` value. -/
def Json.nullishGet (j : Json) (k : String) : Option Json :=
  match j.getField k with
  | some .null => none
  | some v => some v
  | none => none

/-- The `extractArray` helper of `src/server/server.js` (lines 95-105):
an array is returned as is; on an object the fields `data`, `items`,
`list`, `markets`, `result` are probed in order for the first one holding
an array; anything else yields `null`. -/
def extractArray : Json → Option (List Json)
  | .arr l => some l
  | .obj fs =>
      ["data", "items", "list", "markets", "result"].findSome? fun k =>
        match (Json.obj fs).getField k with
        | some (.arr l) => some l
        | _ => none
  | _ => none

/-- Threshold pair `{ok, wait}` passed to the scoring helpers. -/
structure Thresholds where
  ok : ℚ
  wait : ℚ
deriving DecidableEq

/-- Label plus numeric contribution returned by the scoring helpers. -/
structure ScoreResult where
  label : String
  score : ℤ
deriving DecidableEq

/-- The `scoreMetric` helper of `src/server/server.js` (lines 128-132):
higher-is-better three-level step. -/
def scoreMetric (value : ℚ) (thresholds : Thresholds) : ScoreResult :=
  if thresholds.ok ≤ value then ⟨"OK", 1⟩
  else if thresholds.wait ≤ value then ⟨"WAIT", 0⟩
  else ⟨"NO TRADE", -1⟩

/-- The `scoreInverseMetric` helper of `src/server/server.js`
(lines 134-138): lower-is-better three-level step. -/
def scoreInverseMetric (value : ℚ) (thresholds : Thresholds) : ScoreResult :=
  if value ≤ thresholds.ok then ⟨"OK", 1⟩
  else if value ≤ thresholds.wait then ⟨"WAIT", 0⟩
  else ⟨"NO TRADE", -1⟩

/-- The `getVerdict` helper of `src/server/server.js` (lines 140-144).
It is applied both to integer per-token totals and to the fractional
overall mean, hence the rational argument. -/
def getVerdict (total : ℚ) : String :=
  if 1 ≤ total then "OK"
  else if total = 0 then "WAIT"
  else "NO TRADE"

/-- Confidence of a per-token total:
`Math.round(((totalScore + 4) / 8) * 100)` (`server.js` line 254). -/
def confidence (totalScore : ℤ) : ℤ :=
  jsRound (((totalScore : ℚ) + 4) / 8 * 100)

/-- The `sumDepthWithinPercent` helper of `src/server/server.js`
(lines 107-126).  The JavaScript guard `!orderbook || !mid` is truthiness
on the order-book payload and on the rational mid price. -/
def sumDepthWithinPercent (orderbook : Json) (mid percent : ℚ) : ℚ :=
  if ¬ orderbook.truthy ∨ mid = 0 then 0
  else
    let threshold := mid * (percent / 100)
    let maxPrice := mid + threshold
    let minPrice := mid - threshold
    let bids := match orderbook.getField "bids" with
      | some (.arr l) => l | _ => []
    let asks := match orderbook.getField "asks" with
      | some (.arr l) => l | _ => []
    let bidDepth :=
      (bids.filter fun b =>
          decide (minPrice ≤ ((b.getField "price").getD .null).toNumD)).foldl
        (fun t b => t + ((b.getField "size").getD .null).toNumD) 0
    let askDepth :=
      (asks.filter fun a =>
          decide (((a.getField "price").getD .null).toNumD ≤ maxPrice)).foldl
        (fun t a => t + ((a.getField "size").getD .null).toNumD) 0
    bidDepth + askDepth

/-- Top-of-book price `Number(orderbook?.bids?.[0]?.price || 0)`
(`server.js` lines 151-152).  `Number(v || 0)` equals `Json.toNumD v`
because every falsy JSON value is numerically coerced to `0`. -/
def bookTopPrice (orderbook : Json) (side : String) : ℚ :=
  match orderbook.getField side with
  | some (.arr (b :: _)) => ((b.getField "price").getD .null).toNumD
  | _ => 0

/-- Result record of `calcMetrics`. -/
structure CalcMetrics where
  bestBid : ℚ
  bestAsk : ℚ
  mid : ℚ
  spreadPercent : ℚ
  depth : ℚ
  movePercent : ℚ
  volume24h : ℚ
deriving DecidableEq

/-- The `calcMetrics` function of `src/server/server.js` (lines 150-169).
The latest-price fallback is `Number(latestPrice?.price ||
latestPrice?.latestPrice || 0)`; the mid is the bid/ask average when both
tops are truthy, else the fallback; history points are read through
`extractArray` and the last two points carry `p ?? price ?? 0`. -/
def calcMetrics (latestPrice orderbook history : Json) (volume24h : ℚ) :
    CalcMetrics :=
  let bestBid := bookTopPrice orderbook "bids"
  let bestAsk := bookTopPrice orderbook "asks"
  let fallback :=
    match latestPrice.getField "price" with
    | some v =>
        if v.truthy then v.toNumD
        else match latestPrice.getField "latestPrice" with
          | some w => if w.truthy then w.toNumD else 0
          | none => 0
    | none =>
        match latestPrice.getField "latestPrice" with
        | some w => if w.truthy then w.toNumD else 0
        | none => 0
  let mid := if bestBid ≠ 0 ∧ bestAsk ≠ 0 then (bestBid + bestAsk) / 2
    else fallback
  let spreadPercent := if mid = 0 then 0 else (bestAsk - bestBid) / mid * 100
  let depth := sumDepthWithinPercent orderbook mid 1
  let pts := (extractArray history).getD
    (match history with | .arr l => l | _ => [])
  let movePercent :=
    if 1 < pts.length then
      let latest := (((pts.getLast?).bind fun j =>
        (j.nullishGet "p").orElse fun _ => j.nullishGet "price").getD
          (.num 0)).toNumD
      let prior := (((pts.dropLast.getLast?).bind fun j =>
        (j.nullishGet "p").orElse fun _ => j.nullishGet "price").getD
          (.num 0)).toNumD
      if prior = 0 then 0 else |(latest - prior) / prior * 100|
    else 0
  ⟨bestBid, bestAsk, mid, spreadPercent, depth, movePercent, volume24h⟩

/-- Per-token total score as assembled in the analyze endpoint
(`server.js` lines 245-251): liquidity on depth with thresholds
25000/10000, inverse spread with 2.5/5, inverse 1h move with 6/12,
volume with 50000/20000. -/
def totalScore (depth spreadPercent movePercent volume24h : ℚ) : ℤ :=
  (scoreMetric depth ⟨25000, 10000⟩).score
    + (scoreInverseMetric spreadPercent ⟨5/2, 5⟩).score
    + (scoreInverseMetric movePercent ⟨6, 12⟩).score
    + (scoreMetric volume24h ⟨50000, 20000⟩).score

/-- Overall score of the two per-token totals: their arithmetic mean
(`server.js` line 289, with exactly two tokens). -/
def overallScoreOfTotals (t1 t2 : ℤ) : ℚ := ((t1 : ℚ) + (t2 : ℚ)) / 2

/-- Overall verdict (`server.js` line 290): the three-level rule applied
to the mean of the two totals. -/
def overallVerdictOfTotals (t1 t2 : ℤ) : String :=
  getVerdict (overallScoreOfTotals t1 t2)

/-- Scheme test of the WHATWG `new URL(input)` constructor used by
`parseTopicId`: an input parses as a URL only when it starts with a
scheme — a letter followed by letters, digits, `+`, `-` or `.` — and a
colon.  `splitAtScheme` returns the part after the colon when the input
has such a scheme prefix and `none` otherwise (the model treats every
scheme-prefixed string as a parseable URL; host validation of the special
schemes is not modelled, and no claim depends on it). -/
def schemeRestAux : List Char → Option (List Char)
  | [] => none
  | c :: cs =>
      if c = ':' then some cs
      else if c.isAlphanum ∨ c = '+' ∨ c = '-' ∨ c = '.' then schemeRestAux cs
      else none

/-- Part of the input after the URL scheme, when the input starts with a
valid scheme (as a character list; the string functions of the runtime
are byte-position based, the model works on the character list a string
denotes). -/
def splitAtScheme (s : String) : Option (List Char) :=
  match s.data with
  | [] => none
  | c :: cs => if c.isAlpha then schemeRestAux cs else none

/-- Splitting a character list at a separator, the list counterpart of
splitting a string: always returns at least one (possibly empty)
segment. -/
def splitOnChar (sep : Char) : List Char → List (List Char)
  | [] => [[]]
  | c :: cs =>
      match splitOnChar sep cs with
      | [] => [[]]
      | seg :: rest =>
          if c = sep then [] :: seg :: rest else (c :: seg) :: rest

/-- Query parameters of the part of a URL after its scheme: the substring
between the first `?` and a following `#`, split at `&` (empty segments
skipped), each segment split at its first `=`.  Percent-decoding of
values is not modelled (the extracted values are checked to be plain
digit strings). -/
def queryParams (afterScheme : List Char) : List (List Char × List Char) :=
  let query := ((afterScheme.dropWhile (· ≠ '?')).drop 1).takeWhile (· ≠ '#')
  (splitOnChar '&' query).filterMap fun seg =>
    if seg = [] then none
    else some (seg.takeWhile (· ≠ '='), (seg.dropWhile (· ≠ '=')).drop 1)

/-- First value of a query parameter, as returned by
`url.searchParams.get(k)` (`null` when the parameter is absent). -/
def searchParamGet (afterScheme : List Char) (k : List Char) :
    Option (List Char) :=
  ((queryParams afterScheme).find? fun p => p.1 == k).map (·.2)

/-- First match of the regular expression `topicId=(\d+)`: scan left to
right; at each position where the literal `topicId=` is followed by at
least one digit, capture the maximal digit run; otherwise continue the
scan one character further. -/
def findTopicIdMatch : List Char → Option String
  | [] => none
  | c :: cs =>
      if "topicId=".data.isPrefixOf (c :: cs) then
        let run := ((c :: cs).drop 8).takeWhile Char.isDigit
        if run.isEmpty then findTopicIdMatch cs else some (String.mk run)
      else findTopicIdMatch cs

/-- The `parseTopicId` helper of `src/server/server.js` (lines 35-45):
empty input is rejected; a URL-parseable input yields its `topicId` query
parameter provided that parameter is a non-empty digit string (the
`id && /^\d+$/.test(id)` guard), and `null` otherwise; a non-URL input
falls back to the first `topicId=(\d+)` substring match. -/
def parseTopicId (input : String) : Option String :=
  if input = "" then none
  else
    match splitAtScheme input with
    | some rest =>
        match searchParamGet rest "topicId".data with
        | some id =>
            if id ≠ [] ∧ id.all Char.isDigit then some (String.mk id)
            else none
        | none => none
    | none => findTopicIdMatch input.data

/-- Default error text of the upstream client. -/
def openApiErrorText : String := "OpenAPI error"

/-- Display string used when an upstream message value is thrown inside
`new Error(...)`.  Exact for strings — the only message shape the claims
touch; numeric and container messages are approximated. -/
def Json.displayString : Json → String
  | .str s => s
  | .num q => toString q
  | .bool b => if b then "true" else "false"
  | .null => "null"
  | .arr _ => ""
  | .obj _ => "[object Object]"

/-- Message of the envelope error `new Error(payload.msg || "OpenAPI
error")`: the field's display string when the field is truthy, the
default text otherwise. -/
def envelopeMessage (payload : Json) (key : String) : String :=
  match payload.getField key with
  | some v => if v.truthy then v.displayString else openApiErrorText
  | none => openApiErrorText

/-- Envelope handling of the upstream client `openApiGet` in
`src/unnamed/part_001` (lines 74-95), applied to the decoded JSON payload
of a 2xx response: an object carrying both `result` and `code` is the
`{code, msg, result}` envelope — non-zero `code` fails with the `msg`
text, zero `code` returns the unwrapped `result`; otherwise an object
carrying both `result` and `errno` is the `{errno, errmsg, result}`
envelope, handled the same way through `errmsg`; any other payload is
returned unchanged.  `Number(payload.code) !== 0` holds in particular
whenever the coercion yields `NaN`. -/
def openApiUnwrap (payload : Json) : Except String Json :=
  match payload.getField "result" with
  | some r =>
      match payload.getField "code" with
      | some c =>
          if c.toNumber = some 0 then .ok r
          else .error (envelopeMessage payload "msg")
      | none =>
          match payload.getField "errno" with
          | some e =>
              if e.toNumber = some 0 then .ok r
              else .error (envelopeMessage payload "errmsg")
          | none => .ok payload
  | none => .ok payload

/-- Child market record of the upstream listing, as read by
`findChildMarket` (`src/unnamed/part_003`): only the `marketId` field is
inspected; `none` models a missing field. -/
structure ChildRec where
  marketId : Option ℤ
deriving DecidableEq

/-- Root market record of the upstream listing.  `findMarketByTopicId`
(`src/unnamed/part_001`) reads the three topic-id spellings;
`findChildMarket` (`src/unnamed/part_003`) reads `childMarkets`, with
`none` modelling an absent or non-array field (the `Array.isArray`
guard). -/
structure MarketRec where
  topicId : Option ℤ
  topic_id : Option ℤ
  topicID : Option ℤ
  childMarkets : Option (List ChildRec)

/-- Upstream paginated market listing: the `total` reported with page 1
(`Number(first.total || 0)`) and the record list of each 1-based page. -/
structure MarketListing where
  total : ℕ
  pageOf : ℕ → List MarketRec

/-- The `pickTopicId` helper of `src/unnamed/part_001` (lines 194-196):
`m?.topicId ?? m?.topic_id ?? m?.topicID ?? null`. -/
def pickTopicId (m : MarketRec) : Option ℤ :=
  (m.topicId.orElse fun _ => m.topic_id).orElse fun _ => m.topicID

/-- JavaScript `String(x)` on an id that was normalised to `null` when
missing (the trailing `?? null` of `pickTopicId`). -/
def jsStringOfNullableInt : Option ℤ → String
  | some n => toString n
  | none => "null"

/-- JavaScript `String(x)` on a raw possibly-missing id
(`String(child.marketId)`): a missing field prints as `undefined`. -/
def jsStringOfUndefInt : Option ℤ → String
  | some n => toString n
  | none => "undefined"

/-- Root-record match predicate of `findMarketByTopicId`:
`String(pickTopicId(m)) === String(topicId)` (the target arrives as the
digit string produced by `parseTopicId`). -/
def topicMatches (m : MarketRec) (target : String) : Bool :=
  jsStringOfNullableInt (pickTopicId m) == target

/-- Child-record match predicate of `findChildMarket`:
`String(child.marketId) === TARGET`. -/
def childMatches (c : ChildRec) (target : String) : Bool :=
  jsStringOfUndefInt c.marketId == target

/-- The `findIn` helper inside `findMarketByTopicId`
(`src/unnamed/part_001` lines 228-229):
`list.find((m) => String(pickTopicId(m)) === String(topicId))`. -/
def findIn (l : List MarketRec) (target : String) : Option MarketRec :=
  l.find? fun m => topicMatches m target

/-- Number of pages scanned by `findMarketByTopicId`: `Math.ceil(total /
20)` when the reported total is non-zero, `50` otherwise, capped at 80
(`src/unnamed/part_001` lines 225-226 and 234). -/
def listingMaxPages (L : MarketListing) : ℕ :=
  min (if L.total = 0 then 50 else (L.total + 19) / 20) 80

/-- The `findMarketByTopicId` routine of `src/unnamed/part_001`
(lines 220-241): scan page 1, then pages 2 up to the page cap, returning
the first root record whose picked topic id prints equal to the target;
child records are never inspected. -/
def findMarketByTopicId (L : MarketListing) (target : String) :
    Option MarketRec :=
  match findIn (L.pageOf 1) target with
  | some m => some m
  | none =>
      (List.range' 2 (listingMaxPages L - 1)).findSome? fun page =>
        findIn (L.pageOf page) target

/-- The `findChildMarket` routine of `src/unnamed/part_003` (lines 16-37):
scan pages 1 through 10; within each page walk the root records in order,
skipping roots without a `childMarkets` array, and return the first child
whose `marketId` prints equal to the target; root records themselves are
never matched. -/
def findChildMarket (L : MarketListing) (target : String) :
    Option ChildRec :=
  (List.range' 1 10).findSome? fun page =>
    (L.pageOf page).findSome? fun parent =>
      match parent.childMarkets with
      | some cs => cs.find? fun c => childMatches c target
      | none => none

/-- Spec-side definition for the best-bid refinement comparison, following
the spec's words in its data-model section: best bid is the maximum price
among bid entries of the order book, not the entry at index 0. -/
def specBestBid (orderbook : Json) : ℚ :=
  let prices : List ℚ :=
    match orderbook.getField "bids" with
    | some (.arr l) => l.map fun b => ((b.getField "price").getD .null).toNumD
    | _ => []
  prices.foldl max 0

/-- Spec-side definition for the best-ask refinement comparison: minimum
price among ask entries; `1` (the maximal probability price) seeds the
fold so that the minimum over a non-empty in-range ask side is returned. -/
def specBestAsk (orderbook : Json) : ℚ :=
  let prices : List ℚ :=
    match orderbook.getField "asks" with
    | some (.arr l) => l.map fun a => ((a.getField "price").getD .null).toNumD
    | _ => []
  prices.foldl min 1

/-- Order-book level `{price, size}` as a JSON object. -/
def pricedLevel (price size : ℚ) : Json :=
  .obj [("price", .num price), ("size", .num size)]

/-- Order book of the spec's literal scenario:
`bids=[{price:0.40,size:30000}], asks=[{price:0.41,size:30000}]`. -/
def scenarioOrderbook : Json :=
  .obj [("bids", .arr [pricedLevel (2/5) 30000]),
        ("asks", .arr [pricedLevel (41/100) 30000])]

/-- History of the spec's literal scenario: `[{price:0.39},{price:0.40}]`. -/
def scenarioHistory : Json :=
  .arr [.obj [("price", .num (39/100))], .obj [("price", .num (2/5))]]

/-- Metrics of the spec's literal scenario with `volume24h = 60000` (the
scenario supplies no latest price; it is unused since both book sides are
non-empty). -/
def scenarioMetrics : CalcMetrics :=
  calcMetrics .null scenarioOrderbook scenarioHistory 60000

/-- Per-token total of the spec's literal scenario. -/
def scenarioTotal : ℤ :=
  totalScore scenarioMetrics.depth scenarioMetrics.spreadPercent
    scenarioMetrics.movePercent scenarioMetrics.volume24h

/-- Order book whose sides are not sorted best-first: bids `[0.3, 0.5]`,
asks `[0.6, 0.4]` (all sizes 1). -/
def unsortedBook : Json :=
  .obj [("bids", .arr [pricedLevel (3/10) 1, pricedLevel (1/2) 1]),
        ("asks", .arr [pricedLevel (3/5) 1, pricedLevel (2/5) 1])]

/-- Failing `{code, msg, result}` envelope with a non-zero code. -/
def envelopeErrPayload : Json :=
  .obj [("code", .num 5), ("msg", .str "boom"), ("result", .null)]

/-- Successful `{code, msg, result}` envelope. -/
def envelopeOkPayload : Json :=
  .obj [("code", .num 0), ("msg", .str "ok"), ("result", .num 7)]

/-- Failing `{errno, errmsg, result}` envelope with a non-zero errno. -/
def envelopeErrnoPayload : Json :=
  .obj [("errno", .num 3), ("errmsg", .str "bad"), ("result", .num 1)]

/-- Payload without any envelope key. -/
def envelopeRawPayload : Json := .obj [("foo", .num 1)]

/-- Child record with market id 7, present under the counterexample root. -/
def c9Child : ChildRec := ⟨some 7⟩

/-- Root record with topic id 1 carrying `c9Child` as its only child. -/
def c9Root : MarketRec := ⟨some 1, none, none, some [c9Child]⟩

/-- One-page listing whose only root is `c9Root`: the record with id 7 is
present on page 1, but only as a child. -/
def c9Listing : MarketListing := ⟨1, fun _ => [c9Root]⟩

/-- Root record with topic id 5 and a child with market id 9, used to
instantiate the amended paging theorem. -/
def c9wRoot : MarketRec := ⟨some 5, none, none, some [⟨some 9⟩]⟩

/-- One-page listing whose only root is `c9wRoot`. -/
def c9wListing : MarketListing := ⟨1, fun _ => [c9wRoot]⟩

lemma jsRound_eq_floor (q : ℚ) : jsRound q = ⌊q + 1/2⌋ :=
  (Rat.floor_def' (q + 1/2)).trans Rat.floor_def.symm

lemma scoreMetric_score_cases (v : ℚ) (t : Thresholds) :
    (scoreMetric v t).score = 1 ∨ (scoreMetric v t).score = 0 ∨
      (scoreMetric v t).score = -1 := by
  unfold scoreMetric
  split_ifs <;> simp

lemma scoreInverseMetric_score_cases (v : ℚ) (t : Thresholds) :
    (scoreInverseMetric v t).score = 1 ∨ (scoreInverseMetric v t).score = 0 ∨
      (scoreInverseMetric v t).score = -1 := by
  unfold scoreInverseMetric
  split_ifs <;> simp

lemma getVerdict_int_cases (t : ℤ) :
    (getVerdict (t : ℚ) = "OK" ↔ 1 ≤ t) ∧
    (getVerdict (t : ℚ) = "WAIT" ↔ t = 0) ∧
    (getVerdict (t : ℚ) = "NO TRADE" ↔ t < 0) := by
  unfold getVerdict
  split_ifs with ha hb
  · have h1 : 1 ≤ t := by exact_mod_cast ha
    exact ⟨iff_of_true rfl h1, iff_of_false (by decide) (by omega),
      iff_of_false (by decide) (by omega)⟩
  · have h0 : t = 0 := by exact_mod_cast hb
    exact ⟨iff_of_false (by decide) (by omega), iff_of_true rfl h0,
      iff_of_false (by decide) (by omega)⟩
  · have h1 : ¬ 1 ≤ t := fun h => ha (by exact_mod_cast h)
    have h0 : t ≠ 0 := fun h => hb (by exact_mod_cast h)
    exact ⟨iff_of_false (by decide) h1, iff_of_false (by decide) h0,
      iff_of_true rfl (by omega)⟩

lemma confidence_bounds (t : ℤ) (hl : -4 ≤ t) (hr : t ≤ 4) :
    0 ≤ confidence t ∧ confidence t ≤ 100 := by
  have hl' : (-4 : ℚ) ≤ (t : ℚ) := by exact_mod_cast hl
  have hr' : (t : ℚ) ≤ 4 := by exact_mod_cast hr
  rw [confidence, jsRound_eq_floor]
  constructor
  · exact Int.le_floor.mpr (by push_cast; linarith)
  · have h101 : ⌊((t : ℚ) + 4) / 8 * 100 + 1/2⌋ < 101 :=
      Int.floor_lt.mpr (by push_cast; linarith)
    omega

/-- C3.  For every scoring input the total score is the sum of the four
per-metric contributions and lies in [-4, 4]; the verdict is "OK" iff the
total is at least 1, "WAIT" iff it is 0, "NO TRADE" iff it is negative;
and the confidence is `round(((total + 4) / 8) * 100)` and lies in
[0, 100]. -/
theorem c3_total_verdict_confidence (d s m v : ℚ) :
    (-4 ≤ totalScore d s m v ∧ totalScore d s m v ≤ 4) ∧
    (getVerdict ((totalScore d s m v : ℤ) : ℚ) = "OK" ↔
      1 ≤ totalScore d s m v) ∧
    (getVerdict ((totalScore d s m v : ℤ) : ℚ) = "WAIT" ↔
      totalScore d s m v = 0) ∧
    (getVerdict ((totalScore d s m v : ℤ) : ℚ) = "NO TRADE" ↔
      totalScore d s m v < 0) ∧
    confidence (totalScore d s m v)
      = ⌊(((totalScore d s m v : ℤ) : ℚ) + 4) / 8 * 100 + 1/2⌋ ∧
    (0 ≤ confidence (totalScore d s m v) ∧
      confidence (totalScore d s m v) ≤ 100) := by
  have hbounds : -4 ≤ totalScore d s m v ∧ totalScore d s m v ≤ 4 := by
    have h1 := scoreMetric_score_cases d ⟨25000, 10000⟩
    have h2 := scoreInverseMetric_score_cases s ⟨5/2, 5⟩
    have h3 := scoreInverseMetric_score_cases m ⟨6, 12⟩
    have h4 := scoreMetric_score_cases v ⟨50000, 20000⟩
    unfold totalScore
    omega
  have hv := getVerdict_int_cases (totalScore d s m v)
  exact ⟨hbounds, hv.1, hv.2.1, hv.2.2, jsRound_eq_floor _,
    confidence_bounds _ hbounds.1 hbounds.2⟩

/-- C5.  Under the analyze endpoint's liquidity thresholds ok=25000,
wait=10000, a depth of exactly 25000 scores OK (+1) — the upper threshold
is inclusive — and a depth of exactly 9999.99 scores NO TRADE (-1). -/
theorem c5_liquidity_boundaries :
    scoreMetric 25000 ⟨25000, 10000⟩ = ⟨"OK", 1⟩ ∧
    scoreMetric (999999/100) ⟨25000, 10000⟩ = ⟨"NO TRADE", -1⟩ := by
  constructor <;> norm_num [scoreMetric]

/-- C6.  Each scoring helper is a monotone three-level step function over
every threshold pair: the direct `scoreMetric` is monotone non-decreasing
in the value, the inverse `scoreInverseMetric` is monotone non-increasing,
and both draw their scores from {+1, 0, -1}. -/
theorem c6_monotone_step (t : Thresholds) (v1 v2 : ℚ) (h : v1 ≤ v2) :
    (scoreMetric v1 t).score ≤ (scoreMetric v2 t).score ∧
    (scoreInverseMetric v2 t).score ≤ (scoreInverseMetric v1 t).score ∧
    ((scoreMetric v1 t).score = 1 ∨ (scoreMetric v1 t).score = 0 ∨
      (scoreMetric v1 t).score = -1) ∧
    ((scoreInverseMetric v1 t).score = 1 ∨
      (scoreInverseMetric v1 t).score = 0 ∨
      (scoreInverseMetric v1 t).score = -1) := by
  refine ⟨?_, ?_, scoreMetric_score_cases v1 t,
    scoreInverseMetric_score_cases v1 t⟩
  · unfold scoreMetric
    split_ifs <;> simp_all <;> linarith
  · unfold scoreInverseMetric
    split_ifs <;> simp_all <;> linarith

/-- Witness for C6 at the liquidity thresholds and the values 0 ≤ 1. -/
theorem c6_monotone_step_witness :
    (0:ℚ) ≤ 1 ∧
    ((scoreMetric 0 ⟨25000, 10000⟩).score ≤
        (scoreMetric 1 ⟨25000, 10000⟩).score ∧
      (scoreInverseMetric 1 ⟨25000, 10000⟩).score ≤
        (scoreInverseMetric 0 ⟨25000, 10000⟩).score ∧
      ((scoreMetric 0 ⟨25000, 10000⟩).score = 1 ∨
        (scoreMetric 0 ⟨25000, 10000⟩).score = 0 ∨
        (scoreMetric 0 ⟨25000, 10000⟩).score = -1) ∧
      ((scoreInverseMetric 0 ⟨25000, 10000⟩).score = 1 ∨
        (scoreInverseMetric 0 ⟨25000, 10000⟩).score = 0 ∨
        (scoreInverseMetric 0 ⟨25000, 10000⟩).score = -1)) :=
  ⟨by norm_num, c6_monotone_step ⟨25000, 10000⟩ 0 1 (by norm_num)⟩

/-- Counterexample to C10 as stated: at the claim's own example totals
2 and -1 the mean is 1/2 and the overall verdict is "NO TRADE", but the
per-token verdict of the -1 token is itself "NO TRADE", contradicting the
claim's "neither per-token verdict is NO TRADE". -/
theorem c10_counterexample :
    overallScoreOfTotals 2 (-1) = 1/2 ∧
    overallVerdictOfTotals 2 (-1) = "NO TRADE" ∧
    getVerdict (((-1 : ℤ) : ℚ)) = "NO TRADE" := by
  refine ⟨by norm_num [overallScoreOfTotals], ?_, ?_⟩
  · norm_num [overallVerdictOfTotals, overallScoreOfTotals, getVerdict]
  · norm_num [getVerdict]

/-- C10 (amended).  The overall verdict applies the integer three-level
rule to the arithmetic mean of the two per-token totals, so whenever that
mean lies strictly between 0 and 1 the overall verdict is "NO TRADE" even
though the combined score is positive; when moreover both per-token
totals are non-negative (e.g. totals 1 and 0), neither per-token verdict
is "NO TRADE". -/
theorem c10_overall_mean (t1 t2 : ℤ)
    (h1 : 0 < overallScoreOfTotals t1 t2)
    (h2 : overallScoreOfTotals t1 t2 < 1) :
    overallVerdictOfTotals t1 t2 = "NO TRADE" ∧
    0 < t1 + t2 ∧
    (0 ≤ t1 → 0 ≤ t2 →
      getVerdict ((t1 : ℤ) : ℚ) ≠ "NO TRADE" ∧
      getVerdict ((t2 : ℤ) : ℚ) ≠ "NO TRADE") := by
  have hsum : (0 : ℚ) < (t1 : ℚ) + (t2 : ℚ) := by
    have := h1
    rw [overallScoreOfTotals] at this
    linarith
  have hsum' : 0 < t1 + t2 := by exact_mod_cast hsum
  have hsum2 : (t1 : ℚ) + (t2 : ℚ) < 2 := by
    have := h2
    rw [overallScoreOfTotals] at this
    linarith
  refine ⟨?_, hsum', ?_⟩
  · rw [overallVerdictOfTotals, getVerdict,
      if_neg (by rw [overallScoreOfTotals]; linarith),
      if_neg (ne_of_gt h1)]
  · intro ha hb
    have hlt : t1 + t2 < 2 := by exact_mod_cast hsum2
    constructor
    · rcases show t1 = 0 ∨ 1 ≤ t1 by omega with h | h
      · subst h
        have hw : getVerdict (((0 : ℤ) : ℤ) : ℚ) = "WAIT" := by
          norm_num [getVerdict]
        rw [hw]
        decide
      · rw [getVerdict, if_pos (by exact_mod_cast h)]
        decide
    · rcases show t2 = 0 ∨ 1 ≤ t2 by omega with h | h
      · subst h
        have hw : getVerdict (((0 : ℤ) : ℤ) : ℚ) = "WAIT" := by
          norm_num [getVerdict]
        rw [hw]
        decide
      · rw [getVerdict, if_pos (by exact_mod_cast h)]
        decide

/-- Witness for C10 at the totals 1 and 0. -/
theorem c10_overall_mean_witness :
    (0 < overallScoreOfTotals 1 0 ∧ overallScoreOfTotals 1 0 < 1) ∧
    (overallVerdictOfTotals 1 0 = "NO TRADE" ∧
      0 < (1 : ℤ) + (0 : ℤ) ∧
      ((0 : ℤ) ≤ 1 → (0 : ℤ) ≤ 0 →
        getVerdict (((1 : ℤ) : ℤ) : ℚ) ≠ "NO TRADE" ∧
        getVerdict (((0 : ℤ) : ℤ) : ℚ) ≠ "NO TRADE")) :=
  ⟨⟨by norm_num [overallScoreOfTotals], by norm_num [overallScoreOfTotals]⟩,
    c10_overall_mean 1 0 (by norm_num [overallScoreOfTotals])
      (by norm_num [overallScoreOfTotals])⟩

/-- C4.  Whenever the computed mid price is 0 — for every latest-price,
order-book and history payload — the computed spread percent and 1%-band
depth are exactly 0: the divisions by mid are guarded, and in the exact
rational model no NaN or Infinity value exists to propagate. -/
theorem c4_mid_zero_guards (latestPrice orderbook history : Json)
    (volume24h : ℚ)
    (h : (calcMetrics latestPrice orderbook history volume24h).mid = 0) :
    (calcMetrics latestPrice orderbook history volume24h).spreadPercent = 0 ∧
    (calcMetrics latestPrice orderbook history volume24h).depth = 0 := by
  constructor
  · have e : (calcMetrics latestPrice orderbook history volume24h).spreadPercent
        = if (calcMetrics latestPrice orderbook history volume24h).mid = 0
          then 0
          else ((calcMetrics latestPrice orderbook history volume24h).bestAsk
              - (calcMetrics latestPrice orderbook history volume24h).bestBid)
            / (calcMetrics latestPrice orderbook history volume24h).mid
            * 100 := rfl
    rw [e, if_pos h]
  · have e : (calcMetrics latestPrice orderbook history volume24h).depth
        = sumDepthWithinPercent orderbook
            (calcMetrics latestPrice orderbook history volume24h).mid 1 := rfl
    rw [e, h, sumDepthWithinPercent, if_pos (Or.inr rfl)]

/-- Witness for C4 at empty payloads, whose mid is 0. -/
theorem c4_mid_zero_guards_witness :
    (calcMetrics .null .null (.arr []) 0).mid = 0 ∧
    ((calcMetrics .null .null (.arr []) 0).spreadPercent = 0 ∧
      (calcMetrics .null .null (.arr []) 0).depth = 0) :=
  have hmid : (calcMetrics .null .null (.arr []) 0).mid = 0 := by
    norm_num [calcMetrics, bookTopPrice, Json.getField]
  ⟨hmid, c4_mid_zero_guards .null .null (.arr []) 0 hmid⟩

lemma scenarioMetrics_eval :
    scenarioMetrics.mid = 81/200 ∧
    scenarioMetrics.spreadPercent = 200/81 ∧
    scenarioMetrics.depth = 0 ∧
    scenarioMetrics.movePercent = 100/39 ∧
    scenarioMetrics.volume24h = 60000 := by
  refine ⟨?_, ?_, ?_, ?_, rfl⟩
  · simp [scenarioMetrics, calcMetrics, bookTopPrice, scenarioOrderbook,
      pricedLevel, Json.getField, List.find?, Json.toNumD, Json.toNumber]
    norm_num
  · simp [scenarioMetrics, calcMetrics, bookTopPrice, scenarioOrderbook,
      pricedLevel, Json.getField, List.find?, Json.toNumD, Json.toNumber]
    norm_num
  · simp [scenarioMetrics, calcMetrics, bookTopPrice, scenarioOrderbook,
      pricedLevel, Json.getField, List.find?, Json.toNumD, Json.toNumber,
      sumDepthWithinPercent, Json.truthy, List.filter_cons]
    norm_num
  · simp [scenarioMetrics, calcMetrics, bookTopPrice, scenarioOrderbook,
      scenarioHistory, pricedLevel, Json.getField, List.find?, Json.toNumD,
      Json.toNumber, extractArray, Json.nullishGet, List.findSome?]
    norm_num

lemma scenarioTotal_eval : scenarioTotal = 2 := by
  obtain ⟨-, hs, hd, hm, hv⟩ := scenarioMetrics_eval
  rw [scenarioTotal, hs, hd, hm, hv]
  norm_num [totalScore, scoreMetric, scoreInverseMetric]

/-- Counterexample to C1 as stated: on the literal scenario input the
1%-band around mid 0.405 is [0.40095, 0.40905], which contains neither
the 0.40 bid level nor the 0.41 ask level, so the computed depth is 0
(not 60000), the total score is 2 (not 4) and the confidence is 75
(not 100). -/
theorem c1_counterexample :
    scenarioMetrics.depth ≠ 60000 ∧
    scenarioTotal ≠ 4 ∧
    confidence scenarioTotal ≠ 100 := by
  obtain ⟨-, -, hd, -, -⟩ := scenarioMetrics_eval
  have ht := scenarioTotal_eval
  refine ⟨by rw [hd]; norm_num, by omega, ?_⟩
  rw [ht, confidence, jsRound_eq_floor]
  rw [show ((((2:ℤ):ℚ) + 4) / 8 * 100 + 1/2) = 151/2 by norm_num]
  intro hcontra
  have := Int.floor_eq_iff.mp hcontra
  norm_num at this

/-- C1 (amended).  On the literal scenario input the metrics calculation
followed by scoring yields mid 0.405 and spread ≈ 2.47% (scored OK), a
1h move ≈ 2.56% (scored OK) and a volume score of OK; but the 1%-band
depth is 0 — both book levels sit ≈ 1.23% away from mid, outside the
band — so liquidity scores NO TRADE, the total score is 2, the verdict is
"OK" and the confidence is 75. -/
theorem c1_literal_scenario :
    scenarioMetrics.mid = 81/200 ∧
    scenarioMetrics.spreadPercent = 200/81 ∧
    (scoreInverseMetric scenarioMetrics.spreadPercent ⟨5/2, 5⟩).label
      = "OK" ∧
    scenarioMetrics.depth = 0 ∧
    (scoreMetric scenarioMetrics.depth ⟨25000, 10000⟩).label = "NO TRADE" ∧
    scenarioMetrics.movePercent = 100/39 ∧
    (scoreInverseMetric scenarioMetrics.movePercent ⟨6, 12⟩).label = "OK" ∧
    (scoreMetric scenarioMetrics.volume24h ⟨50000, 20000⟩).label = "OK" ∧
    scenarioTotal = 2 ∧
    getVerdict ((scenarioTotal : ℤ) : ℚ) = "OK" ∧
    confidence scenarioTotal = 75 := by
  obtain ⟨hmid, hs, hd, hm, hv⟩ := scenarioMetrics_eval
  have ht := scenarioTotal_eval
  refine ⟨hmid, hs, ?_, hd, ?_, hm, ?_, ?_, ht, ?_, ?_⟩
  · rw [hs]; norm_num [scoreInverseMetric]
  · rw [hd]; norm_num [scoreMetric]
  · rw [hm]; norm_num [scoreInverseMetric]
  · rw [hv]; norm_num [scoreMetric]
  · rw [ht]; norm_num [getVerdict]
  · rw [ht, confidence, jsRound_eq_floor]
    rw [show ((((2:ℤ):ℚ) + 4) / 8 * 100 + 1/2) = 151/2 by norm_num]
    rw [Int.floor_eq_iff]
    constructor <;> norm_num

lemma unsortedBook_metrics_eval :
    (calcMetrics .null unsortedBook (.arr []) 0).bestBid = 3/10 ∧
    (calcMetrics .null unsortedBook (.arr []) 0).bestAsk = 3/5 ∧
    specBestBid unsortedBook = 1/2 ∧
    specBestAsk unsortedBook = 2/5 := by
  refine ⟨?_, ?_, ?_, ?_⟩
  · simp [calcMetrics, bookTopPrice, unsortedBook, pricedLevel,
      Json.getField, List.find?, Json.toNumD, Json.toNumber]
  · simp [calcMetrics, bookTopPrice, unsortedBook, pricedLevel,
      Json.getField, List.find?, Json.toNumD, Json.toNumber]
  · simp [specBestBid, unsortedBook, pricedLevel, Json.getField,
      List.find?, Json.toNumD, Json.toNumber]
    norm_num [max_def]
  · simp [specBestAsk, unsortedBook, pricedLevel, Json.getField,
      List.find?, Json.toNumD, Json.toNumber]
    norm_num [min_def]

/-- C2.  The claim describes the spec's intended extremal best-bid/ask
selection, but `calcMetrics` reads the entry at index 0 of each side: on
an order book whose sides are not sorted best-first (bids [0.3, 0.5],
asks [0.6, 0.4]) the code returns best bid 0.3 and best ask 0.6, while
the extremal prices demanded by the claim are 0.5 (maximum bid) and 0.4
(minimum ask). -/
theorem c2_index_zero_not_extremal :
    (calcMetrics .null unsortedBook (.arr []) 0).bestBid = 3/10 ∧
    (calcMetrics .null unsortedBook (.arr []) 0).bestAsk = 3/5 ∧
    specBestBid unsortedBook = 1/2 ∧
    specBestAsk unsortedBook = 2/5 ∧
    (calcMetrics .null unsortedBook (.arr []) 0).bestBid
      ≠ specBestBid unsortedBook ∧
    (calcMetrics .null unsortedBook (.arr []) 0).bestAsk
      ≠ specBestAsk unsortedBook := by
  obtain ⟨h1, h2, h3, h4⟩ := unsortedBook_metrics_eval
  refine ⟨h1, h2, h3, h4, ?_, ?_⟩
  · rw [h1, h3]; norm_num
  · rw [h2, h4]; norm_num

/-- C7.  The upstream client detects the response envelope by key
inspection of the decoded payload: an object carrying the
`{code, msg, result}` envelope with a non-zero numeric code fails with the
upstream's own message, and with a zero code returns the unwrapped
result; the same holds for the `{errno, errmsg, result}` envelope through
`errmsg`; and a payload carrying neither envelope key is returned
unchanged. -/
theorem c7_envelope_detection (p : Json) :
    (∀ c r m, p.getField "result" = some r →
        p.getField "code" = some (.num c) →
        p.getField "msg" = some (.str m) → m ≠ "" →
        (c ≠ 0 → openApiUnwrap p = .error m) ∧
        (c = 0 → openApiUnwrap p = .ok r)) ∧
    (∀ e r m, p.getField "result" = some r →
        p.getField "code" = none →
        p.getField "errno" = some (.num e) →
        p.getField "errmsg" = some (.str m) → m ≠ "" →
        (e ≠ 0 → openApiUnwrap p = .error m) ∧
        (e = 0 → openApiUnwrap p = .ok r)) ∧
    (p.getField "code" = none → p.getField "errno" = none →
      openApiUnwrap p = .ok p) := by
  refine ⟨?_, ?_, ?_⟩
  · intro c r m hr hc hm hm'
    have hmsg : envelopeMessage p "msg" = m := by
      rw [envelopeMessage, hm]
      simp [Json.truthy, Json.displayString, hm']
    constructor
    · intro hcne
      rw [openApiUnwrap, hr, hc]
      simp only [Json.toNumber, Option.some.injEq]
      rw [if_neg hcne, hmsg]
    · intro hc0
      rw [openApiUnwrap, hr, hc]
      simp only [Json.toNumber, Option.some.injEq]
      rw [if_pos hc0]
  · intro e r m hr hc he hm hm'
    have hmsg : envelopeMessage p "errmsg" = m := by
      rw [envelopeMessage, hm]
      simp [Json.truthy, Json.displayString, hm']
    constructor
    · intro hene
      rw [openApiUnwrap, hr, hc, he]
      simp only [Json.toNumber, Option.some.injEq]
      rw [if_neg hene, hmsg]
    · intro he0
      rw [openApiUnwrap, hr, hc, he]
      simp only [Json.toNumber, Option.some.injEq]
      rw [if_pos he0]
  · intro hc he
    rw [openApiUnwrap]
    cases hr : p.getField "result" with
    | none => rfl
    | some r => rw [hc, he]

/-- Witness for C7 on the four concrete envelope payloads. -/
theorem c7_envelope_detection_witness :
    openApiUnwrap envelopeErrPayload = .error "boom" ∧
    openApiUnwrap envelopeOkPayload = .ok (.num 7) ∧
    openApiUnwrap envelopeErrnoPayload = .error "bad" ∧
    openApiUnwrap envelopeRawPayload = .ok envelopeRawPayload :=
  ⟨((c7_envelope_detection envelopeErrPayload).1 5 .null "boom"
      rfl rfl rfl (by decide)).1 (by norm_num),
   ((c7_envelope_detection envelopeOkPayload).1 0 (.num 7) "ok"
      rfl rfl rfl (by decide)).2 rfl,
   ((c7_envelope_detection envelopeErrnoPayload).2.1 3 (.num 1) "bad"
      rfl rfl rfl rfl (by decide)).1 (by norm_num),
   (c7_envelope_detection envelopeRawPayload).2.2 rfl rfl⟩

lemma findTopicIdMatch_sound (l : List Char) :
    ∀ id, findTopicIdMatch l = some id →
      id.data ≠ [] ∧ id.data.all Char.isDigit = true := by
  induction l with
  | nil =>
      intro id h
      simp [findTopicIdMatch] at h
  | cons c cs ih =>
      intro id h
      rw [findTopicIdMatch] at h
      split at h
      · dsimp only [] at h
        split at h
        · exact ih id h
        · rename_i hrun
          cases h
          refine ⟨?_, List.all_takeWhile⟩
          simpa using hrun
      · exact ih id h

lemma parseTopicId_sound (s id : String) (h : parseTopicId s = some id) :
    id.data ≠ [] ∧ id.data.all Char.isDigit = true := by
  rw [parseTopicId] at h
  split at h
  · exact absurd h (by simp)
  · split at h
    · split at h
      · split at h
        · rename_i hguard
          cases h
          exact hguard
        · exact absurd h (by simp)
      · exact absurd h (by simp)
    · exact findTopicIdMatch_sound _ id h

/-- Counterexample to C8 as stated: the raw numeric string "61" is not a
parseable URL and contains no `topicId=` match, so identifier parsing
rejects it instead of yielding the id 61. -/
theorem c8_counterexample : parseTopicId "61" = none := by decide

/-- C8 (amended).  Identifier parsing extracts the `topicId` query
parameter from a URL, falls back to a literal `topicId=<digits>`
substring match on non-URL input, and rejects everything else — in
particular raw numeric strings such as "61" are rejected (the analyze
endpoint then fails with the invalid-URL error); every id it does return
is a non-empty digit string. -/
theorem c8_parse_identifier :
    (∀ s id, parseTopicId s = some id →
      id.data ≠ [] ∧ id.data.all Char.isDigit = true) ∧
    parseTopicId "https://app.opinion.trade/detail?topicId=61&type=multi"
      = some "61" ∧
    parseTopicId "see topicId=42 here" = some "42" ∧
    parseTopicId "61" = none ∧
    parseTopicId "hello" = none ∧
    parseTopicId "" = none := by
  refine ⟨parseTopicId_sound, by decide, by decide, by decide, by decide,
    by decide⟩

/-- Witness for C8, instantiating the soundness part at a successful
parse. -/
theorem c8_parse_identifier_witness :
    parseTopicId "see topicId=42 here" = some "42" ∧
    ("42" : String).data ≠ [] ∧
    ("42" : String).data.all Char.isDigit = true :=
  ⟨by decide,
    (c8_parse_identifier.1 "see topicId=42 here" "42" (by decide)).1,
    (c8_parse_identifier.1 "see topicId=42 here" "42" (by decide)).2⟩

/-- Counterexample to C9 as stated: on a one-page listing whose only root
record (topic id 1) carries a child record with market id 7, the target
"7" is present on page 1 as a child of a root record, yet the resolver's
page scan `findMarketByTopicId` reports not-found — it never inspects
child records. -/
theorem c9_counterexample :
    c9Listing.pageOf 1 = [c9Root] ∧
    c9Root.childMarkets = some [c9Child] ∧
    childMatches c9Child "7" = true ∧
    listingMaxPages c9Listing = 1 ∧
    findMarketByTopicId c9Listing "7" = none :=
  ⟨rfl, rfl, rfl, rfl, rfl⟩

/-- C9 (amended).  `findMarketByTopicId` finds a record whose topic id
matches the target whenever such a record is present as a ROOT record on
any page up to the safety cap (`min(ceil(total/20), 80)` pages, 50 when
the reported total is 0), and reports not-found only when no root record
on the scanned pages matches; child records are searched only by the
separate `findChildMarket`, which conversely matches only children (by
market id) and scans at most 10 pages. -/
theorem c9_paging :
    (∀ (L : MarketListing) (target : String) (p : ℕ) (m : MarketRec),
        1 ≤ p → p ≤ listingMaxPages L → m ∈ L.pageOf p →
        topicMatches m target = true →
        ∃ m', findMarketByTopicId L target = some m' ∧
          topicMatches m' target = true) ∧
    (∀ (L : MarketListing) (target : String),
        findMarketByTopicId L target = none →
        ∀ p, 1 ≤ p → p ≤ listingMaxPages L →
          ∀ m ∈ L.pageOf p, topicMatches m target = false) ∧
    (∀ (L : MarketListing) (target : String) (p : ℕ)
        (parent : MarketRec) (cs : List ChildRec) (c : ChildRec),
        1 ≤ p → p ≤ 10 → parent ∈ L.pageOf p →
        parent.childMarkets = some cs → c ∈ cs →
        childMatches c target = true →
        ∃ c', findChildMarket L target = some c' ∧
          childMatches c' target = true) := by
  refine ⟨?_, ?_, ?_⟩
  · intro L target p m hp1 hp2 hm hmatch
    cases h1 : findIn (L.pageOf 1) target with
    | some m0 =>
        refine ⟨m0, by simp [findMarketByTopicId, h1], ?_⟩
        rw [findIn] at h1
        have := List.find?_some h1
        simpa using this
    | none =>
        by_cases hp : p = 1
        · subst hp
          rw [findIn] at h1
          have := List.find?_eq_none.mp h1 m hm
          simp [hmatch] at this
        · have hmem : p ∈ List.range' 2 (listingMaxPages L - 1) := by
            rw [List.mem_range'_1]
            omega
          cases h2 : (List.range' 2 (listingMaxPages L - 1)).findSome?
              (fun page => findIn (L.pageOf page) target) with
          | none =>
              exfalso
              have hpage := List.findSome?_eq_none_iff.mp h2 p hmem
              rw [findIn] at hpage
              have := List.find?_eq_none.mp hpage m hm
              simp [hmatch] at this
          | some m' =>
              refine ⟨m', by simp [findMarketByTopicId, h1, h2], ?_⟩
              obtain ⟨page, hpm, hfind⟩ := List.exists_of_findSome?_eq_some h2
              rw [findIn] at hfind
              have := List.find?_some hfind
              simpa using this
  · intro L target hnone p hp1 hp2 m hm
    rw [findMarketByTopicId] at hnone
    split at hnone
    · exact absurd hnone (by simp)
    · rename_i h1
      by_cases hp : p = 1
      · subst hp
        rw [findIn] at h1
        have := List.find?_eq_none.mp h1 m hm
        simpa using this
      · have hmem : p ∈ List.range' 2 (listingMaxPages L - 1) := by
          rw [List.mem_range'_1]
          omega
        have hpage := List.findSome?_eq_none_iff.mp hnone p hmem
        rw [findIn] at hpage
        have := List.find?_eq_none.mp hpage m hm
        simpa using this
  · intro L target p parent cs c hp1 hp2 hparent hcs hc hcmatch
    cases hout : findChildMarket L target with
    | some c' =>
        refine ⟨c', rfl, ?_⟩
        rw [findChildMarket] at hout
        obtain ⟨page, hpm, hpage⟩ := List.exists_of_findSome?_eq_some hout
        obtain ⟨par, hparm, hpar⟩ := List.exists_of_findSome?_eq_some hpage
        split at hpar
        · rename_i cs' hcs'
          have := List.find?_some hpar
          simpa using this
        · exact absurd hpar (by simp)
    | none =>
        exfalso
        rw [findChildMarket] at hout
        have hpagemem : p ∈ List.range' 1 10 := by
          rw [List.mem_range'_1]
          omega
        have hpage := List.findSome?_eq_none_iff.mp hout p hpagemem
        have hpar := List.findSome?_eq_none_iff.mp hpage parent hparent
        rw [hcs] at hpar
        have := List.find?_eq_none.mp hpar c hc
        simp [hcmatch] at this

/-- Witness for C9 on a concrete one-page listing: the root with topic
id 5 is found by the root scan and its child with market id 9 is found by
the child scan. -/
theorem c9_paging_witness :
    ((1 : ℕ) ≤ 1 ∧ 1 ≤ listingMaxPages c9wListing ∧
      c9wRoot ∈ c9wListing.pageOf 1 ∧ topicMatches c9wRoot "5" = true) ∧
    (∃ m', findMarketByTopicId c9wListing "5" = some m' ∧
      topicMatches m' "5" = true) ∧
    (∃ c', findChildMarket c9wListing "9" = some c' ∧
      childMatches c' "9" = true) :=
  ⟨⟨le_refl 1, le_refl 1, by simp [c9wListing], rfl⟩,
    c9_paging.1 c9wListing "5" 1 c9wRoot (le_refl 1) (le_refl 1)
      (by simp [c9wListing]) rfl,
    c9_paging.2.2 c9wListing "9" 1 c9wRoot [⟨some 9⟩] ⟨some 9⟩
      (le_refl 1) (by omega) (by simp [c9wListing]) rfl
      (by simp) rfl⟩
